import Mathlib

/-!
Verification of the time-parsing and comparison core of the Stoltzen result
scraper.  The repository has two Python classes, `StoltzenScraper`
(stoltzen_scraper.py) and `StoltzenStatScraper` (src/stoltzen_stat_scraper.py),
each with its own `parse_time` and `time_to_seconds`; the personal-best and
delta helpers are shared logic.  We embed each method over `List Char` /
`String`, modelling Python's `re.search` for the two fixed patterns used by
the code as explicit backtracking matchers, `re.split` on the class `[.:]`,
`str.strip`, and `int()`.
-/

/-- ASCII decimal digit, the model of the regex class `\d` on this data. -/
def isDigitChar (c : Char) : Bool :=
  decide (48 ≤ c.toNat) && decide (c.toNat ≤ 57)

/-- The separator class `[.:]` used by every pattern in the source. -/
def isSep (c : Char) : Bool :=
  c == '.' || c == ':'

/-- Whitespace as stripped by Python's `str.strip()`. -/
def pyIsSpace (c : Char) : Bool :=
  c == ' ' || c == '\t' || c == '\n' || c == '\r' || c == '\x0b' || c == '\x0c'

/-- Model of Python `str.strip()` on the character list of a string. -/
def pyStrip (l : List Char) : List Char :=
  ((l.dropWhile pyIsSpace).reverse.dropWhile pyIsSpace).reverse

/-- All characters of the list are ASCII digits. -/
def allDigits (l : List Char) : Bool :=
  l.all isDigitChar

/-- Numeric value of a digit string, the value Python's `int()` gives it. -/
def digitsVal (l : List Char) : Nat :=
  l.foldl (fun n c => 10 * n + (c.toNat - 48)) 0

/-- Model of Python `int(s)` on a decimal literal: surrounding whitespace is
allowed, then an optional single sign and a nonempty run of digits; anything
else raises, which the callers catch and turn into `none`. -/
def pyInt (l : List Char) : Option Int :=
  match pyStrip l with
  | [] => none
  | c :: t =>
    if c == '+' then
      if t.isEmpty || !allDigits t then none else some (digitsVal t)
    else if c == '-' then
      if t.isEmpty || !allDigits t then none else some (-(digitsVal t : Int))
    else if allDigits (c :: t) then some (digitsVal (c :: t)) else none

/-- Model of Python `re.split(r'[.:]', s)`: split at every separator,
keeping empty parts, so the result is always nonempty. -/
def pySplitSep : List Char → List (List Char)
  | [] => [[]]
  | c :: cs =>
    if isSep c then [] :: pySplitSep cs
    else
      match pySplitSep cs with
      | [] => [[c]]
      | p :: ps => (c :: p) :: ps

/-- Number of separator characters in the list. -/
def countSep (l : List Char) : Nat :=
  (l.filter isSep).length

/-- Match exactly `n` digits at the head of the list, returning them and the
rest; fails if a non-digit occurs among the first `n` characters. -/
def takeDigits : Nat → List Char → Option (List Char × List Char)
  | 0, cs => some ([], cs)
  | _ + 1, [] => none
  | n + 1, c :: cs =>
    if isDigitChar c then
      match takeDigits n cs with
      | some (d, r) => some (c :: d, r)
      | none => none
    else none

/-- One backtracking alternative of the 3-group pattern
`(\d{1,2})[.:](\d{2})[.:](\d{2})` at a fixed position, with the first group
bound to exactly `n` digits. -/
def tryA3 (n : Nat) (cs : List Char) : Option (List Char × List Char × List Char) :=
  match takeDigits n cs with
  | none => none
  | some (a, r) =>
    match r with
    | [] => none
    | s1 :: r1 =>
      if isSep s1 then
        match takeDigits 2 r1 with
        | none => none
        | some (b, r2) =>
          match r2 with
          | [] => none
          | s2 :: r3 =>
            if isSep s2 then
              match takeDigits 2 r3 with
              | none => none
              | some (c, _) => some (a, b, c)
            else none
      else none

/-- The 3-group pattern at a fixed position: the greedy `\d{1,2}` tries two
digits first and backtracks to one. -/
def match3At (cs : List Char) : Option (List Char × List Char × List Char) :=
  match tryA3 2 cs with
  | some r => some r
  | none => tryA3 1 cs

/-- Model of `re.search` for the 3-group pattern: leftmost match position
wins. -/
def search3 : List Char → Option (List Char × List Char × List Char)
  | [] => none
  | c :: cs =>
    match match3At (c :: cs) with
    | some r => some r
    | none => search3 cs

/-- One backtracking alternative of the 2-group pattern
`(\d{1,3})[.:](\d{2})` at a fixed position, with the first group bound to
exactly `n` digits. -/
def tryA2 (n : Nat) (cs : List Char) : Option (List Char × List Char) :=
  match takeDigits n cs with
  | none => none
  | some (a, r) =>
    match r with
    | [] => none
    | s1 :: r1 =>
      if isSep s1 then
        match takeDigits 2 r1 with
        | none => none
        | some (b, _) => some (a, b)
      else none

/-- The 2-group pattern at a fixed position: the greedy `\d{1,3}` tries
three digits, then two, then one. -/
def match2At (cs : List Char) : Option (List Char × List Char) :=
  match tryA2 3 cs with
  | some r => some r
  | none =>
    match tryA2 2 cs with
    | some r => some r
    | none => tryA2 1 cs

/-- Model of `re.search` for the 2-group pattern. -/
def search2 : List Char → Option (List Char × List Char)
  | [] => none
  | c :: cs =>
    match match2At (c :: cs) with
    | some r => some r
    | none => search2 cs

/-- Model of the Python format `f"\x7bn:02d\x7d"` for a nonnegative value:
pad with a zero to two digits. -/
def pad2 (n : Nat) : String :=
  if n < 10 then "0" ++ toString n else toString n

/-- Model of Python's substring test `sub in hay`. -/
def containsSub (sub : List Char) : List Char → Bool
  | [] => sub.isEmpty
  | c :: t => sub.isPrefixOf (c :: t) || containsSub sub t

/-- Model of Python `str.lower()` restricted to the ASCII letters that occur
in the keywords the source tests for. -/
def pyLower (l : List Char) : List Char :=
  l.map Char.toLower

namespace StoltzenScraper

/-- `StoltzenScraper.parse_time` (stoltzen_scraper.py, lines 41-67): search
for `(\d{1,2})[.:](\d{2})[.:](\d{2})`; a first group above 23 means
minutes:seconds (drop the third group), otherwise hours:minutes:seconds with
the hours dropped when zero; else search for `(\d{1,3})[.:](\d{2})`; else
return the stripped input. -/
def parse_time (time_str : Option String) : Option String :=
  match time_str with
  | none => none
  | some ts =>
    if ts.data = [] then none
    else
      let s := pyStrip ts.data
      match search3 s with
      | some (hours, minutes, seconds) =>
        if digitsVal hours > 23 then some (String.mk (minutes ++ ':' :: seconds))
        else if digitsVal hours > 0 then
          some (String.mk (hours ++ ':' :: (minutes ++ ':' :: seconds)))
        else some (String.mk (minutes ++ ':' :: seconds))
      | none =>
        match search2 s with
        | some (minutes, seconds) => some (String.mk (minutes ++ ':' :: seconds))
        | none => some (String.mk s)

/-- `StoltzenScraper.time_to_seconds` (stoltzen_scraper.py, lines 284-304):
split on `[.:]`; two parts give minutes*60+seconds; three parts give
minutes*60+seconds when the first part exceeds 59 and
hours*3600+minutes*60+seconds otherwise; any failure of `int()` or another
arity gives `none`. -/
def time_to_seconds (time_str : String) : Option Int :=
  if time_str.data = [] then none
  else
    match pySplitSep (pyStrip time_str.data) with
    | [p1, p2] =>
      match pyInt p1, pyInt p2 with
      | some minutes, some seconds => some (minutes * 60 + seconds)
      | _, _ => none
    | [p1, p2, p3] =>
      match pyInt p1 with
      | none => none
      | some first =>
        if first > 59 then
          match pyInt p1, pyInt p2, pyInt p3 with
          | some minutes, some seconds, some _ => some (minutes * 60 + seconds)
          | _, _, _ => none
        else
          match pyInt p1, pyInt p2, pyInt p3 with
          | some hours, some minutes, some seconds =>
            some (hours * 3600 + minutes * 60 + seconds)
          | _, _, _ => none
    | _ => none

/-- `StoltzenScraper.is_new_best_time` (stoltzen_scraper.py, lines 258-282):
false without a current time; true when the previous best time is falsy or
the best year is missing; false when the best year is 2024 or later; else
compare seconds, with any conversion failure giving false. -/
def is_new_best_time (current_time : Option String)
    (best_previous : Option String) (best_year : Option Int) : Bool :=
  match current_time with
  | none => false
  | some ct =>
    if ct.data = [] then false
    else
      match best_previous with
      | none => true
      | some bp =>
        if bp.data = [] then true
        else
          match best_year with
          | none => true
          | some y =>
            if y ≥ 2024 then false
            else
              match time_to_seconds ct, time_to_seconds bp with
              | some cs, some ps => decide (cs < ps)
              | _, _ => false

/-- `StoltzenScraper.calculate_time_difference` (stoltzen_scraper.py, lines
306-332): absent when either time is falsy or fails conversion; zero
difference gives the literal "0:00"; otherwise a sign followed by
minutes:seconds of the absolute difference, seconds padded to two digits. -/
def calculate_time_difference (current_time best_previous : Option String) :
    Option String :=
  match current_time, best_previous with
  | some ct, some bp =>
    if ct.data = [] ∨ bp.data = [] then none
    else
      match time_to_seconds ct, time_to_seconds bp with
      | some current_seconds, some previous_seconds =>
        let diff_seconds := current_seconds - previous_seconds
        if diff_seconds = 0 then some "0:00"
        else
          let abs_diff := diff_seconds.natAbs
          let minutes := abs_diff / 60
          let seconds := abs_diff % 60
          let sign := if diff_seconds < 0 then "-" else "+"
          some (sign ++ toString minutes ++ ":" ++ pad2 seconds)
      | _, _ => none
  | _, _ => none

end StoltzenScraper

namespace StoltzenStatScraper

/-- `StoltzenStatScraper.parse_time` (src/stoltzen_stat_scraper.py, lines
66-100): search for `(\d{1,2})[.:](\d{2})[.:](\d{2})`; a first group of at
most 60 with a third group below 100 means minutes:seconds with discarded
hundredths; a first group above 23 also means minutes:seconds; otherwise
hours:minutes:seconds with the hours dropped when zero; else search for
`(\d{1,3})[.:](\d{2})`; else return the stripped input. -/
def parse_time (time_str : Option String) : Option String :=
  match time_str with
  | none => none
  | some ts =>
    if ts.data = [] then none
    else
      let s := pyStrip ts.data
      match search3 s with
      | some (first, second, third) =>
        if digitsVal first ≤ 60 ∧ digitsVal third < 100 then
          some (String.mk (first ++ ':' :: second))
        else if digitsVal first > 23 then
          some (String.mk (first ++ ':' :: second))
        else if digitsVal first > 0 then
          some (String.mk (first ++ ':' :: (second ++ ':' :: third)))
        else some (String.mk (second ++ ':' :: third))
      | none =>
        match search2 s with
        | some (minutes, seconds) => some (String.mk (minutes ++ ':' :: seconds))
        | none => some (String.mk s)

/-- `StoltzenStatScraper.time_to_seconds` (src/stoltzen_stat_scraper.py,
lines 102-126): split on `[.:]`; two parts give minutes*60+seconds; three
parts give first*60+second when the first part is at most 60 and the third
below 100, and first*3600+second*60+third otherwise. -/
def time_to_seconds (time_str : String) : Option Int :=
  if time_str.data = [] then none
  else
    match pySplitSep (pyStrip time_str.data) with
    | [p1, p2] =>
      match pyInt p1, pyInt p2 with
      | some minutes, some seconds => some (minutes * 60 + seconds)
      | _, _ => none
    | [p1, p2, p3] =>
      match pyInt p1, pyInt p2, pyInt p3 with
      | some first, some second, some third =>
        if first ≤ 60 ∧ third < 100 then some (first * 60 + second)
        else some (first * 3600 + second * 60 + third)
      | _, _, _ => none
    | _ => none

/-- `StoltzenStatScraper.determine_group_from_class`
(src/stoltzen_stat_scraper.py, lines 166-181): lowercase the class text and
test keyword containment, defaulting to "Mann". -/
def determine_group_from_class (class_text : Option String) : String :=
  match class_text with
  | none => "Mann"
  | some ct =>
    if ct.data = [] then "Mann"
    else
      let cl := pyLower ct.data
      if containsSub "kvinner".data cl || containsSub "kvinne".data cl ||
          containsSub "dame".data cl then "Dame"
      else if containsSub "pluss 90kg".data cl || containsSub "pluss90kg".data cl ||
          containsSub "pluss".data cl then "Pluss"
      else if containsSub "menn".data cl || containsSub "mann".data cl ||
          containsSub "herrer".data cl || containsSub "herre".data cl then "Mann"
      else "Mann"

end StoltzenStatScraper

/-- Seconds of an optional time string: absent input stays absent, a present
string goes through `StoltzenScraper.time_to_seconds`. -/
def secsOf : Option String → Option Int
  | none => none
  | some s => StoltzenScraper.time_to_seconds s

/-- Python truthiness of an optional string: present and nonempty. -/
def pyTruthy : Option String → Bool
  | none => false
  | some s => decide (s.data ≠ [])

/-! ### Character-level facts -/

theorem sep_cases (c : Char) (h : isSep c = true) : c = '.' ∨ c = ':' := by
  simpa [isSep] using h

theorem digit_toNat (c : Char) (h : isDigitChar c = true) :
    48 ≤ c.toNat ∧ c.toNat ≤ 57 := by
  simpa [isDigitChar] using h

theorem sep_not_digit (c : Char) (h : isSep c = true) : isDigitChar c = false := by
  rcases sep_cases c h with rfl | rfl <;> decide

theorem digit_not_sep (c : Char) (h : isDigitChar c = true) : isSep c = false := by
  cases hs : isSep c with
  | false => rfl
  | true => rcases sep_cases c hs with rfl | rfl <;> exact absurd h (by decide)

theorem space_cases (c : Char) (h : pyIsSpace c = true) :
    c = ' ' ∨ c = '\t' ∨ c = '\n' ∨ c = '\r' ∨ c = '\x0b' ∨ c = '\x0c' := by
  have := h
  simp only [pyIsSpace, Bool.or_eq_true, beq_iff_eq] at this
  tauto

theorem digit_not_space (c : Char) (h : isDigitChar c = true) : pyIsSpace c = false := by
  cases hs : pyIsSpace c with
  | false => rfl
  | true =>
    rcases space_cases c hs with rfl | rfl | rfl | rfl | rfl | rfl <;>
      exact absurd h (by decide)

theorem sep_not_space (c : Char) (h : isSep c = true) : pyIsSpace c = false := by
  rcases sep_cases c h with rfl | rfl <;> decide

theorem digit_not_plus (c : Char) (h : isDigitChar c = true) : (c == '+') = false := by
  cases hp : c == '+' with
  | false => rfl
  | true =>
    have : c = '+' := by simpa using hp
    subst this
    exact absurd h (by decide)

theorem digit_not_minus (c : Char) (h : isDigitChar c = true) : (c == '-') = false := by
  cases hp : c == '-' with
  | false => rfl
  | true =>
    have : c = '-' := by simpa using hp
    subst this
    exact absurd h (by decide)

/-! ### Stripping -/

theorem dropWhile_eq_self (l : List Char) (h : ∀ c ∈ l, pyIsSpace c = false) :
    l.dropWhile pyIsSpace = l := by
  cases l with
  | nil => rfl
  | cons a t => simp [List.dropWhile_cons, h a (by simp)]

theorem pyStrip_eq_self (l : List Char) (h : ∀ c ∈ l, pyIsSpace c = false) :
    pyStrip l = l := by
  unfold pyStrip
  rw [dropWhile_eq_self l h, dropWhile_eq_self l.reverse (by simpa using h),
    List.reverse_reverse]

/-! ### takeDigits -/

theorem takeDigits_all (a : List Char) (r : List Char) (ha : allDigits a = true) :
    takeDigits a.length (a ++ r) = some (a, r) := by
  induction a with
  | nil => rfl
  | cons c t ih =>
    simp only [allDigits, List.all_cons, Bool.and_eq_true] at ha
    simp [takeDigits, ha.1, ih ha.2]

theorem takeDigits_sound :
    ∀ (n : Nat) (cs d r : List Char), takeDigits n cs = some (d, r) →
      cs = d ++ r ∧ allDigits d = true ∧ d.length = n := by
  intro n
  induction n with
  | zero =>
    intro cs d r h
    simp only [takeDigits, Option.some.injEq, Prod.mk.injEq] at h
    simp [← h.1, ← h.2, allDigits]
  | succ m ih =>
    intro cs d r h
    cases cs with
    | nil => simp [takeDigits] at h
    | cons c t =>
      simp only [takeDigits] at h
      by_cases hc : isDigitChar c = true
      · rw [if_pos hc] at h
        cases htd : takeDigits m t with
        | none => rw [htd] at h; simp at h
        | some p =>
          rw [htd] at h
          obtain ⟨d', r'⟩ := p
          simp only [Option.some.injEq, Prod.mk.injEq] at h
          obtain ⟨hd, hr⟩ := h
          obtain ⟨ht1, ht2, ht3⟩ := ih t d' r' htd
          subst hd hr
          refine ⟨by simp [ht1], ?_, by simp [ht3]⟩
          have ht2' := ht2
          simp only [allDigits, List.all_cons, Bool.and_eq_true] at ht2' ⊢
          exact ⟨hc, ht2'⟩
      · rw [if_neg hc] at h; simp at h

theorem takeDigits_head_not_digit (n : Nat) (c : Char) (cs : List Char)
    (h : isDigitChar c = false) : takeDigits (n + 1) (c :: cs) = none := by
  simp [takeDigits, h]

/-! ### pyInt on plain digit strings -/

theorem pyInt_digits (l : List Char) (hd : allDigits l = true) (hne : l ≠ []) :
    pyInt l = some (digitsVal l) := by
  cases l with
  | nil => exact absurd rfl hne
  | cons c t =>
    have hns : ∀ x ∈ c :: t, pyIsSpace x = false := by
      intro x hx
      exact digit_not_space x (by
        have := List.all_eq_true.mp hd x hx
        simpa using this)
    have hc : isDigitChar c = true := by
      have := List.all_eq_true.mp hd c (by simp)
      simpa using this
    simp only [pyInt, pyStrip_eq_self _ hns]
    rw [digit_not_plus c hc, digit_not_minus c hc]
    simp [hd]

/-! ### Separator counting: a 3-group match needs two separators -/

theorem countSep_append (a b : List Char) :
    countSep (a ++ b) = countSep a + countSep b := by
  simp [countSep, List.filter_append]

theorem countSep_digits (a : List Char) (ha : allDigits a = true) :
    countSep a = 0 := by
  induction a with
  | nil => rfl
  | cons c t ih =>
    simp only [allDigits, List.all_cons, Bool.and_eq_true] at ha
    simp [countSep, List.filter_cons, digit_not_sep c ha.1]
    simpa [countSep] using ih (by simpa [allDigits] using ha.2)

theorem countSep_cons_sep (c : Char) (t : List Char) (h : isSep c = true) :
    countSep (c :: t) = 1 + countSep t := by
  simp [countSep, List.filter_cons, h, Nat.add_comm]

theorem countSep_cons_le (c : Char) (t : List Char) :
    countSep t ≤ countSep (c :: t) := by
  by_cases h : isSep c = true
  · simp [countSep, List.filter_cons, h]
  · simp [countSep, List.filter_cons, Bool.of_not_eq_true h]

theorem tryA3_some_countSep (n : Nat) (cs : List Char)
    (r : List Char × List Char × List Char) (h : tryA3 n cs = some r) :
    2 ≤ countSep cs := by
  unfold tryA3 at h
  cases htd : takeDigits n cs with
  | none => rw [htd] at h; simp at h
  | some p =>
    rw [htd] at h
    obtain ⟨a, r0⟩ := p
    obtain ⟨hcs, hda, -⟩ := takeDigits_sound n cs a r0 htd
    cases r0 with
    | nil => simp at h
    | cons s1 r1 =>
      simp only at h
      by_cases hs1 : isSep s1 = true
      · rw [if_pos hs1] at h
        cases htd2 : takeDigits 2 r1 with
        | none => rw [htd2] at h; simp at h
        | some q =>
          rw [htd2] at h
          obtain ⟨b, r2⟩ := q
          obtain ⟨hr1, hdb, -⟩ := takeDigits_sound 2 r1 b r2 htd2
          cases r2 with
          | nil => simp at h
          | cons s2 r3 =>
            simp only at h
            by_cases hs2 : isSep s2 = true
            · rw [hcs, countSep_append, countSep_digits a hda,
                countSep_cons_sep s1 r1 hs1, hr1, countSep_append,
                countSep_digits b hdb, countSep_cons_sep s2 r3 hs2]
              omega
            · rw [if_neg hs2] at h; simp at h
      · rw [if_neg hs1] at h; simp at h

theorem match3At_some_countSep (cs : List Char)
    (r : List Char × List Char × List Char) (h : match3At cs = some r) :
    2 ≤ countSep cs := by
  unfold match3At at h
  cases h2 : tryA3 2 cs with
  | some q => exact tryA3_some_countSep 2 cs q h2
  | none =>
    rw [h2] at h
    simp only at h
    exact tryA3_some_countSep 1 cs r h

theorem search3_some_countSep :
    ∀ (cs : List Char) (r : List Char × List Char × List Char),
      search3 cs = some r → 2 ≤ countSep cs := by
  intro cs
  induction cs with
  | nil => intro r h; simp [search3] at h
  | cons c t ih =>
    intro r h
    unfold search3 at h
    cases hm : match3At (c :: t) with
    | some q => exact match3At_some_countSep (c :: t) q hm
    | none =>
      rw [hm] at h
      simp only at h
      exact le_trans (ih r h) (countSep_cons_le c t)

theorem search3_none_of_countSep (cs : List Char) (h : countSep cs ≤ 1) :
    search3 cs = none := by
  cases hs : search3 cs with
  | none => rfl
  | some r => exact absurd (search3_some_countSep cs r hs) (by omega)

/-! ### Successful matches on exact tokens -/

theorem tryA3_token (a b c : List Char) (s1 s2 : Char)
    (ha : allDigits a = true) (hb : allDigits b = true) (hbl : b.length = 2)
    (hc : allDigits c = true) (hcl : c.length = 2)
    (hs1 : isSep s1 = true) (hs2 : isSep s2 = true) :
    tryA3 a.length (a ++ s1 :: (b ++ s2 :: c)) = some (a, b, c) := by
  have h1 : takeDigits a.length (a ++ s1 :: (b ++ s2 :: c))
      = some (a, s1 :: (b ++ s2 :: c)) := takeDigits_all a (s1 :: (b ++ s2 :: c)) ha
  have h2 : takeDigits 2 (b ++ s2 :: c) = some (b, s2 :: c) := by
    have := takeDigits_all b (s2 :: c) hb
    rwa [hbl] at this
  have h3 : takeDigits 2 (c ++ []) = some (c, []) := by
    have := takeDigits_all c [] hc
    rwa [hcl] at this
  rw [List.append_nil] at h3
  unfold tryA3
  rw [h1]
  simp only [hs1, if_true, h2, hs2, h3]

theorem match3At_token (a b c : List Char) (s1 s2 : Char)
    (ha : allDigits a = true) (hal : a.length = 1 ∨ a.length = 2)
    (hb : allDigits b = true) (hbl : b.length = 2)
    (hc : allDigits c = true) (hcl : c.length = 2)
    (hs1 : isSep s1 = true) (hs2 : isSep s2 = true) :
    match3At (a ++ s1 :: (b ++ s2 :: c)) = some (a, b, c) := by
  rcases hal with hal | hal
  · obtain ⟨a1, t⟩ : ∃ a1 t, a = a1 :: t := by
      cases a with
      | nil => simp at hal
      | cons x y => exact ⟨x, y, rfl⟩
    obtain ⟨t, rfl⟩ := t
    have ht : t = [] := by simpa using hal
    subst ht
    have ha1 : isDigitChar a1 = true := by simpa [allDigits] using ha
    have hfail : tryA3 2 ([a1] ++ s1 :: (b ++ s2 :: c)) = none := by
      unfold tryA3
      have : takeDigits 2 ([a1] ++ s1 :: (b ++ s2 :: c)) = none := by
        simp [takeDigits, ha1, sep_not_digit s1 hs1]
      rw [this]
    unfold match3At
    rw [hfail]
    have := tryA3_token [a1] b c s1 s2 ha hb hbl hc hcl hs1 hs2
    simpa using this
  · have := tryA3_token a b c s1 s2 ha hb hbl hc hcl hs1 hs2
    rw [hal] at this
    unfold match3At
    rw [this]

theorem search3_of_match3At (cs : List Char)
    (r : List Char × List Char × List Char) (hne : cs ≠ [])
    (h : match3At cs = some r) : search3 cs = some r := by
  cases cs with
  | nil => exact absurd rfl hne
  | cons c t =>
    unfold search3
    rw [h]

theorem tryA2_token (m s : List Char) (sep : Char)
    (hm : allDigits m = true) (hs : allDigits s = true) (hsl : s.length = 2)
    (hsep : isSep sep = true) :
    tryA2 m.length (m ++ sep :: s) = some (m, s) := by
  have h1 : takeDigits m.length (m ++ sep :: s) = some (m, sep :: s) :=
    takeDigits_all m _ hm
  have h2 : takeDigits 2 (s ++ []) = some (s, []) := by
    have := takeDigits_all s [] hs
    rwa [hsl] at this
  rw [List.append_nil] at h2
  unfold tryA2
  rw [h1]
  simp only [hsep, if_true, h2]

theorem takeDigits_over (k : Nat) (m : List Char) (sep : Char) (r : List Char)
    (hm : allDigits m = true) (hlt : m.length < k) (hsep : isSep sep = true) :
    takeDigits k (m ++ sep :: r) = none := by
  induction m generalizing k with
  | nil =>
    cases k with
    | zero => omega
    | succ k' => simp [takeDigits, sep_not_digit sep hsep]
  | cons c t ih =>
    cases k with
    | zero => omega
    | succ k' =>
      simp only [allDigits, List.all_cons, Bool.and_eq_true] at hm
      have := ih (by simpa [allDigits] using hm.2) (k := k') (by simpa using hlt)
      simp [takeDigits, hm.1, this]

theorem match2At_token (m s : List Char) (sep : Char)
    (hm : allDigits m = true) (hml : 1 ≤ m.length) (hml3 : m.length ≤ 3)
    (hs : allDigits s = true) (hsl : s.length = 2)
    (hsep : isSep sep = true) :
    match2At (m ++ sep :: s) = some (m, s) := by
  have htok := tryA2_token m s sep hm hs hsl hsep
  unfold match2At
  interval_cases h : m.length
  · have f3 : tryA2 3 (m ++ sep :: s) = none := by
      unfold tryA2
      rw [takeDigits_over 3 m sep s hm (by omega) hsep]
    have f2 : tryA2 2 (m ++ sep :: s) = none := by
      unfold tryA2
      rw [takeDigits_over 2 m sep s hm (by omega) hsep]
    rw [f3]
    simp only
    rw [f2]
    simp only
    exact htok
  · have f3 : tryA2 3 (m ++ sep :: s) = none := by
      unfold tryA2
      rw [takeDigits_over 3 m sep s hm (by omega) hsep]
    rw [f3]
    simp only
    rw [htok]
  · rw [htok]

theorem search2_of_match2At (cs : List Char)
    (r : List Char × List Char) (hne : cs ≠ [])
    (h : match2At cs = some r) : search2 cs = some r := by
  cases cs with
  | nil => exact absurd rfl hne
  | cons c t =>
    unfold search2
    rw [h]

/-! ### Bridging helpers for whole tokens -/

theorem data_mk (l : List Char) : (String.mk l).data = l := rfl

theorem digits_no_space (l : List Char) (hl : allDigits l = true) :
    ∀ x ∈ l, pyIsSpace x = false := by
  intro x hx
  exact digit_not_space x (by simpa using List.all_eq_true.mp hl x hx)

theorem token3_strip (a b c : List Char) (s1 s2 : Char)
    (ha : allDigits a = true) (hb : allDigits b = true) (hc : allDigits c = true)
    (hs1 : isSep s1 = true) (hs2 : isSep s2 = true) :
    pyStrip (a ++ s1 :: (b ++ s2 :: c)) = a ++ s1 :: (b ++ s2 :: c) := by
  apply pyStrip_eq_self
  intro x hx
  simp only [List.mem_append, List.mem_cons] at hx
  rcases hx with hx | hx | hx | hx | hx
  · exact digits_no_space a ha x hx
  · subst hx; exact sep_not_space _ hs1
  · exact digits_no_space b hb x hx
  · subst hx; exact sep_not_space _ hs2
  · exact digits_no_space c hc x hx

theorem token2_strip (m s : List Char) (sep : Char)
    (hm : allDigits m = true) (hs : allDigits s = true) (hsep : isSep sep = true) :
    pyStrip (m ++ sep :: s) = m ++ sep :: s := by
  apply pyStrip_eq_self
  intro x hx
  simp only [List.mem_append, List.mem_cons] at hx
  rcases hx with hx | hx | hx
  · exact digits_no_space m hm x hx
  · subst hx; exact sep_not_space _ hsep
  · exact digits_no_space s hs x hx

/-! ### Claim theorems -/

/-- Claim C1, counterexample: the claim asserts
`parse("07.54.23") == "7:54"` with the leading group unpadded, but
`StoltzenStatScraper.parse_time` emits the groups exactly as the regex
matched them, keeping the leading zero. -/
theorem stat_parse_time_unpadded_cex :
    StoltzenStatScraper.parse_time (some "07.54.23") = some "07:54" ∧
    StoltzenStatScraper.parse_time (some "07.54.23") ≠ some "7:54" := by
  constructor
  · rfl
  · decide

/-- Claim C1 (amended): for every raw token of the exact shape
A sep B sep C, with A one or two digits (the pattern is `\d\x7b1,2\x7d`),
B and C exactly two digits, each separator '.' or ':', and with the value
of A at most 60 and the value of C below 100,
`StoltzenStatScraper.parse_time` takes the minutes:seconds branch that
discards the hundredths group and returns "A:B" with the groups exactly as
matched (leading zeros preserved). -/
theorem stat_parse_time_minutes_branch (a b c : List Char) (s1 s2 : Char)
    (ha : allDigits a = true) (hal : a.length = 1 ∨ a.length = 2)
    (hb : allDigits b = true) (hbl : b.length = 2)
    (hc : allDigits c = true) (hcl : c.length = 2)
    (hs1 : isSep s1 = true) (hs2 : isSep s2 = true)
    (hA : digitsVal a ≤ 60) (hC : digitsVal c < 100) :
    StoltzenStatScraper.parse_time (some (String.mk (a ++ s1 :: (b ++ s2 :: c))))
      = some (String.mk (a ++ ':' :: b)) := by
  have hne : a ++ s1 :: (b ++ s2 :: c) ≠ [] := by simp
  have hstrip := token3_strip a b c s1 s2 ha hb hc hs1 hs2
  have hsearch : search3 (a ++ s1 :: (b ++ s2 :: c)) = some (a, b, c) :=
    search3_of_match3At _ _ hne
      (match3At_token a b c s1 s2 ha hal hb hbl hc hcl hs1 hs2)
  simp only [StoltzenStatScraper.parse_time, data_mk]
  rw [if_neg hne, hstrip, hsearch]
  simp [hA, hC]

/-- Claim C1 witness: `parse("07.54.23")` hits the amended branch and
produces "07:54". -/
theorem stat_parse_time_minutes_branch_witness :
    StoltzenStatScraper.parse_time (some "07.54.23") = some "07:54" := by
  have h := stat_parse_time_minutes_branch ['0', '7'] ['5', '4'] ['2', '3'] '.' '.'
    (by decide) (by decide) (by decide) (by decide) (by decide) (by decide)
    (by decide) (by decide) (by decide) (by decide)
  exact h

/-- Claim C3: in `StoltzenScraper.parse_time`, a 3-group token whose first
group does not take the earlier minutes:seconds branch (its value is at
most 23) is interpreted as hours:minutes:seconds: the result is "A:B:C"
when the value of A is positive and "B:C" when it is zero. -/
theorem parse_time_hours_branch (a b c : List Char) (s1 s2 : Char)
    (ha : allDigits a = true) (hal : a.length = 1 ∨ a.length = 2)
    (hb : allDigits b = true) (hbl : b.length = 2)
    (hc : allDigits c = true) (hcl : c.length = 2)
    (hs1 : isSep s1 = true) (hs2 : isSep s2 = true)
    (hA : digitsVal a ≤ 23) :
    StoltzenScraper.parse_time (some (String.mk (a ++ s1 :: (b ++ s2 :: c))))
      = some (if 0 < digitsVal a
          then String.mk (a ++ ':' :: (b ++ ':' :: c))
          else String.mk (b ++ ':' :: c)) := by
  have hne : a ++ s1 :: (b ++ s2 :: c) ≠ [] := by simp
  have hstrip := token3_strip a b c s1 s2 ha hb hc hs1 hs2
  have hsearch : search3 (a ++ s1 :: (b ++ s2 :: c)) = some (a, b, c) :=
    search3_of_match3At _ _ hne
      (match3At_token a b c s1 s2 ha hal hb hbl hc hcl hs1 hs2)
  have h23 : ¬ (digitsVal a > 23) := by omega
  simp only [StoltzenScraper.parse_time, data_mk]
  rw [if_neg hne, hstrip, hsearch]
  by_cases h0 : 0 < digitsVal a
  · simp [h23, h0]
  · simp [h23, h0]

/-- Claim C3 witness: `parse("1.23.45") == "1:23:45"` on
`StoltzenScraper.parse_time`. -/
theorem parse_time_hours_branch_witness :
    StoltzenScraper.parse_time (some "1.23.45") = some "1:23:45" := by
  have h := parse_time_hours_branch ['1'] ['2', '3'] ['4', '5'] '.' '.'
    (by decide) (by decide) (by decide) (by decide) (by decide) (by decide)
    (by decide) (by decide) (by decide)
  exact h

/-- Claim C7, counterexample: the claim asserts a non-matching non-empty
input is returned unchanged, but the source strips surrounding whitespace
before the pattern search and returns the stripped string. -/
theorem parse_time_passthrough_cex :
    StoltzenScraper.parse_time (some " abc ") = some "abc" ∧
    StoltzenScraper.parse_time (some " abc ") ≠ some " abc " := by
  constructor
  · rfl
  · decide

/-- Claim C7 (amended): absent or empty input gives absent; a non-empty
input on which neither the 3-group pattern nor the 2-group pattern matches
is passed through as its whitespace-stripped self, never absent. -/
theorem parse_time_passthrough_spec :
    StoltzenScraper.parse_time none = none ∧
    StoltzenScraper.parse_time (some "") = none ∧
    ∀ ts : String, ts.data ≠ [] →
      search3 (pyStrip ts.data) = none →
      search2 (pyStrip ts.data) = none →
      StoltzenScraper.parse_time (some ts) = some (String.mk (pyStrip ts.data)) := by
  refine ⟨rfl, rfl, ?_⟩
  intro ts hne h3 h2
  simp only [StoltzenScraper.parse_time]
  rw [if_neg hne, h3, h2]

/-- Claim C7 witness: "xx" matches neither pattern and is passed through. -/
theorem parse_time_passthrough_spec_witness :
    StoltzenScraper.parse_time (some "xx") = some "xx" := by
  have h := parse_time_passthrough_spec.2.2 "xx" (by decide) (by decide) (by decide)
  exact h

/-- Claim C8: `parse_time` is idempotent on every string of the 2-group
canonical shape M:SS (M one to three digits, SS exactly two digits), which
covers every 2-group output the parser produces. -/
theorem parse_time_idempotent_two_group (m s : List Char)
    (hm : allDigits m = true) (hm1 : 1 ≤ m.length) (hm3 : m.length ≤ 3)
    (hs : allDigits s = true) (hsl : s.length = 2) :
    StoltzenStatScraper.parse_time (some (String.mk (m ++ ':' :: s)))
      = some (String.mk (m ++ ':' :: s)) := by
  have hsep : isSep ':' = true := by decide
  have hne : m ++ ':' :: s ≠ [] := by simp
  have hstrip := token2_strip m s ':' hm hs hsep
  have h3 : search3 (m ++ ':' :: s) = none := by
    apply search3_none_of_countSep
    rw [countSep_append, countSep_digits m hm, countSep_cons_sep ':' s hsep,
      countSep_digits s hs]
  have h2 : search2 (m ++ ':' :: s) = some (m, s) :=
    search2_of_match2At _ _ hne (match2At_token m s ':' hm hm1 hm3 hs hsl hsep)
  simp only [StoltzenStatScraper.parse_time, data_mk]
  rw [if_neg hne, hstrip, h3, h2]

/-- Claim C8 witness: re-parsing the canonical output "7:54" is a no-op. -/
theorem parse_time_idempotent_two_group_witness :
    StoltzenStatScraper.parse_time (some "7:54") = some "7:54" := by
  have h := parse_time_idempotent_two_group ['7'] ['5', '4']
    (by decide) (by decide) (by decide) (by decide) (by decide)
  exact h

/-- Claim C2: `StoltzenScraper.time_to_seconds` splits on '.' or ':'; two
numeric components give minutes*60+seconds; three numeric components give
minutes*60+seconds with the third dropped when the first exceeds 59 and
hours*3600+minutes*60+seconds otherwise; `toSeconds("7:54") == 474` and
`toSeconds("1:23:45") == 5025`. -/
theorem time_to_seconds_spec :
    (∀ (s : String) (p1 p2 : List Char),
        s.data ≠ [] →
        pySplitSep (pyStrip s.data) = [p1, p2] →
        p1 ≠ [] → allDigits p1 = true → p2 ≠ [] → allDigits p2 = true →
        StoltzenScraper.time_to_seconds s
          = some ((digitsVal p1 : Int) * 60 + (digitsVal p2 : Int)))
  ∧ (∀ (s : String) (p1 p2 p3 : List Char),
        s.data ≠ [] →
        pySplitSep (pyStrip s.data) = [p1, p2, p3] →
        p1 ≠ [] → allDigits p1 = true → p2 ≠ [] → allDigits p2 = true →
        p3 ≠ [] → allDigits p3 = true →
        StoltzenScraper.time_to_seconds s
          = if (digitsVal p1 : Int) > 59
            then some ((digitsVal p1 : Int) * 60 + (digitsVal p2 : Int))
            else some ((digitsVal p1 : Int) * 3600 + (digitsVal p2 : Int) * 60
              + (digitsVal p3 : Int)))
  ∧ StoltzenScraper.time_to_seconds "7:54" = some 474
  ∧ StoltzenScraper.time_to_seconds "1:23:45" = some 5025 := by
  refine ⟨?_, ?_, by decide, by decide⟩
  · intro s p1 p2 hne hsplit h1n h1d h2n h2d
    simp only [StoltzenScraper.time_to_seconds]
    rw [if_neg hne, hsplit]
    simp [pyInt_digits p1 h1d h1n, pyInt_digits p2 h2d h2n]
  · intro s p1 p2 p3 hne hsplit h1n h1d h2n h2d h3n h3d
    simp only [StoltzenScraper.time_to_seconds]
    rw [if_neg hne, hsplit]
    by_cases h59 : (digitsVal p1 : Int) > 59
    · simp [pyInt_digits p1 h1d h1n, pyInt_digits p2 h2d h2n,
        pyInt_digits p3 h3d h3n, h59]
    · simp [pyInt_digits p1 h1d h1n, pyInt_digits p2 h2d h2n,
        pyInt_digits p3 h3d h3n, h59]

/-- Claim C2 witness: "7:54" splits into the digit parts 7 and 54 and
converts to 474 seconds. -/
theorem time_to_seconds_spec_witness :
    StoltzenScraper.time_to_seconds "7:54"
      = some ((digitsVal ['7'] : Int) * 60 + (digitsVal ['5', '4'] : Int)) := by
  have h := time_to_seconds_spec.1 "7:54" ['7'] ['5', '4'] (by decide) (by decide)
    (by decide) (by decide) (by decide) (by decide)
  exact h

/-- Claim C6: the two `time_to_seconds` variants disagree on a 3-component
input whose first component equals 60: on "60:30:100" the `first > 59`
variant drops the third component (3630 seconds) while the
`first ≤ 60 and third < 100` variant takes the hours branch (217900
seconds). -/
theorem time_to_seconds_variants_disagree :
    pySplitSep (pyStrip "60:30:100".data) = [['6', '0'], ['3', '0'], ['1', '0', '0']] ∧
    digitsVal ['6', '0'] = 60 ∧
    StoltzenScraper.time_to_seconds "60:30:100" = some 3630 ∧
    StoltzenStatScraper.time_to_seconds "60:30:100" = some 217900 ∧
    StoltzenScraper.time_to_seconds "60:30:100"
      ≠ StoltzenStatScraper.time_to_seconds "60:30:100" := by
  refine ⟨by decide, by decide, by decide, by decide, by decide⟩

/-- Claim C4, counterexample: the claim asserts `isNewBest` is false
whenever `bestYear` is at least the current year (2024), but with an absent
`bestTime` the source returns true before it ever checks the year. -/
theorem is_new_best_time_year_check_cex :
    StoltzenScraper.is_new_best_time (some "7:54") none (some 2024) = true := rfl

/-- Claim C4 (amended): `isNewBest` is true exactly when the current time
is present (nonempty) and either the previous best time is falsy, or the
best year is absent, or the best year is before 2024 and both conversions
succeed with the current seconds strictly below the best seconds.  The
falsy-best-time check precedes the year check, so an absent best time gives
true even with a best year of 2024 or later. -/
theorem is_new_best_time_characterization (ct bp : Option String) (y : Option Int) :
    StoltzenScraper.is_new_best_time ct bp y = true ↔
      (pyTruthy ct = true ∧
        (pyTruthy bp = false ∨ y = none ∨
          ∃ yv : Int, y = some yv ∧ yv < 2024 ∧
            ∃ cs ps : Int, secsOf ct = some cs ∧ secsOf bp = some ps ∧ cs < ps)) := by
  cases ct with
  | none => simp [StoltzenScraper.is_new_best_time, pyTruthy]
  | some c =>
    by_cases hcd : c.data = []
    · simp [StoltzenScraper.is_new_best_time, pyTruthy, hcd]
    · cases bp with
      | none => simp [StoltzenScraper.is_new_best_time, pyTruthy, hcd]
      | some b =>
        by_cases hbd : b.data = []
        · simp [StoltzenScraper.is_new_best_time, pyTruthy, hcd, hbd]
        · cases y with
          | none => simp [StoltzenScraper.is_new_best_time, pyTruthy, hcd, hbd]
          | some yv =>
            by_cases hy : yv ≥ 2024
            · have hy' : ¬ (yv < 2024) := by omega
              simp [StoltzenScraper.is_new_best_time, pyTruthy, hcd, hbd, hy, hy']
            · have hy' : yv < 2024 := by omega
              cases hcs : StoltzenScraper.time_to_seconds c with
              | none =>
                simp [StoltzenScraper.is_new_best_time, pyTruthy, hcd, hbd, hy,
                  hcs, secsOf]
              | some cs =>
                cases hps : StoltzenScraper.time_to_seconds b with
                | none =>
                  simp [StoltzenScraper.is_new_best_time, pyTruthy, hcd, hbd, hy,
                    hcs, hps, secsOf]
                | some ps =>
                  simp [StoltzenScraper.is_new_best_time, pyTruthy, hcd, hbd, hy,
                    hy', hcs, hps, secsOf]

/-- Claim C5: the delta is absent when either side is absent or fails
conversion; a zero difference gives the literal "0:00"; a nonzero
difference gives '-' or '+' followed by minutes and zero-padded seconds of
the absolute difference; 474 against 460 gives "+0:14". -/
theorem calculate_time_difference_spec :
    (∀ ct bp : Option String,
        secsOf ct = none ∨ secsOf bp = none →
        StoltzenScraper.calculate_time_difference ct bp = none)
  ∧ (∀ (ct bp : Option String) (cs ps : Int),
        secsOf ct = some cs → secsOf bp = some ps →
        StoltzenScraper.calculate_time_difference ct bp =
          if cs - ps = 0 then some "0:00"
          else some ((if cs - ps < 0 then "-" else "+")
            ++ toString ((cs - ps).natAbs / 60) ++ ":" ++ pad2 ((cs - ps).natAbs % 60)))
  ∧ StoltzenScraper.calculate_time_difference (some "7:54") (some "7:40")
      = some "+0:14" := by
  refine ⟨?_, ?_, by decide⟩
  · intro ct bp h
    cases ct with
    | none => rfl
    | some c =>
      cases bp with
      | none => rfl
      | some b =>
        simp only [secsOf] at h
        by_cases hcd : c.data = []
        · simp [StoltzenScraper.calculate_time_difference, hcd]
        · by_cases hbd : b.data = []
          · simp [StoltzenScraper.calculate_time_difference, hbd]
          · rcases h with h | h
            · simp [StoltzenScraper.calculate_time_difference, hcd, hbd, h]
            · cases hcs : StoltzenScraper.time_to_seconds c <;>
                simp [StoltzenScraper.calculate_time_difference, hcd, hbd, hcs, h]
  · intro ct bp cs ps hcs hps
    cases ct with
    | none => simp [secsOf] at hcs
    | some c =>
      cases bp with
      | none => simp [secsOf] at hps
      | some b =>
        simp only [secsOf] at hcs hps
        have hcd : c.data ≠ [] := by
          intro hd
          simp [StoltzenScraper.time_to_seconds, hd] at hcs
        have hbd : b.data ≠ [] := by
          intro hd
          simp [StoltzenScraper.time_to_seconds, hd] at hps
        simp [StoltzenScraper.calculate_time_difference, hcd, hbd, hcs, hps]

/-- Claim C5 witness: an unparseable current time yields an absent delta. -/
theorem calculate_time_difference_spec_witness :
    StoltzenScraper.calculate_time_difference (some "abc") (some "7:40") = none :=
  calculate_time_difference_spec.1 (some "abc") (some "7:40") (Or.inl (by decide))

/-- Claim C9: `determine_group_from_class` always returns one of the three
tags "Dame", "Mann", "Pluss", and returns "Mann" whenever no keyword of the
source's three keyword groups occurs in the lowercased class text; absent
input also gives "Mann". -/
theorem determine_group_closed_set :
    (∀ ct : Option String,
        StoltzenStatScraper.determine_group_from_class ct = "Dame" ∨
        StoltzenStatScraper.determine_group_from_class ct = "Mann" ∨
        StoltzenStatScraper.determine_group_from_class ct = "Pluss")
  ∧ (∀ s : String,
        containsSub "kvinner".data (pyLower s.data) = false ∧
        containsSub "kvinne".data (pyLower s.data) = false ∧
        containsSub "dame".data (pyLower s.data) = false ∧
        containsSub "pluss 90kg".data (pyLower s.data) = false ∧
        containsSub "pluss90kg".data (pyLower s.data) = false ∧
        containsSub "pluss".data (pyLower s.data) = false ∧
        containsSub "menn".data (pyLower s.data) = false ∧
        containsSub "mann".data (pyLower s.data) = false ∧
        containsSub "herrer".data (pyLower s.data) = false ∧
        containsSub "herre".data (pyLower s.data) = false →
        StoltzenStatScraper.determine_group_from_class (some s) = "Mann")
  ∧ StoltzenStatScraper.determine_group_from_class none = "Mann" := by
  refine ⟨?_, ?_, rfl⟩
  · intro ct
    cases ct with
    | none => right; left; rfl
    | some s =>
      by_cases h0 : s.data = []
      · right; left; simp [StoltzenStatScraper.determine_group_from_class, h0]
      · simp only [StoltzenStatScraper.determine_group_from_class, if_neg h0]
        split
        · left; rfl
        · split
          · right; right; rfl
          · split
            · right; left; rfl
            · right; left; rfl
  · intro s h
    obtain ⟨h1, h2, h3, h4, h5, h6, h7, h8, h9, h10⟩ := h
    by_cases h0 : s.data = []
    · simp [StoltzenStatScraper.determine_group_from_class, h0]
    · simp [StoltzenStatScraper.determine_group_from_class, if_neg h0,
        h1, h2, h3, h4, h5, h6, h7, h8, h9, h10]

/-- Claim C9 witness: no keyword occurs in "xyz", so the group is "Mann". -/
theorem determine_group_closed_set_witness :
    StoltzenStatScraper.determine_group_from_class (some "xyz") = "Mann" :=
  determine_group_closed_set.2.1 "xyz" (by decide)

/-- Claim C10: with a present (nonempty) previous best time and a best year
before 2024, a conversion failure of either side makes
`is_new_best_time` return false: an incomparable time is never reported as
a new personal best. -/
theorem incomparable_never_new_best (ct : Option String) (b : String) (y : Int)
    (hb : b.data ≠ []) (hy : y < 2024)
    (h : secsOf ct = none ∨ StoltzenScraper.time_to_seconds b = none) :
    StoltzenScraper.is_new_best_time ct (some b) (some y) = false := by
  cases ct with
  | none => rfl
  | some c =>
    by_cases hcd : c.data = []
    · simp [StoltzenScraper.is_new_best_time, hcd]
    · have hy' : ¬ (y ≥ 2024) := by omega
      rcases h with h | h
      · simp only [secsOf] at h
        simp [StoltzenScraper.is_new_best_time, hcd, hb, hy', h]
      · cases hcs : StoltzenScraper.time_to_seconds c <;>
          simp [StoltzenScraper.is_new_best_time, hcd, hb, hy', hcs, h]

/-- Claim C10 witness: "abc" fails conversion, so even against the
comparable best "8:11" from 2020 the answer is false. -/
theorem incomparable_never_new_best_witness :
    StoltzenScraper.is_new_best_time (some "abc") (some "8:11") (some 2020) = false :=
  incomparable_never_new_best (some "abc") "8:11" 2020 (by decide) (by decide)
    (Or.inl (by decide))
